import Mathlib

/-!
Verification development for the reward-center program: an on-ledger
loyalty overlay for an NFT auction house.  The public instruction surface
is taken from src/program/src/lib.rs; the admin CLI commands from
src/cli/src/commands/create.rs and
src/cli/src/commands/withdraw_auction_house.rs.  Handler bodies live in
program modules that are not part of the given sources, so they are
modelled from the specification, as marked on each definition.
Machine integers are modelled as Nat with explicit saturation at the
u64 bound where the code saturates.
-/

/-- The largest value representable in a Rust u64. -/
def U64MAX : Nat := 2 ^ 64 - 1

/-- Rust u64 saturating multiplication: the product, capped at u64 MAX. -/
def satMul64 (a b : Nat) : Nat := min (a * b) U64MAX

/-- Rust u64 saturating exponentiation: the power, capped at u64 MAX. -/
def satPow64 (b e : Nat) : Nat := min (b ^ e) U64MAX

/-- Account addresses on the ledger, abstracted to naturals. -/
abbrev Pubkey : Type := Nat

/-- The payout operand of a reward-rules configuration.  The source
(src/cli/src/commands/create.rs) names the variants Divide and Multiple. -/
inductive PayoutOperation
  | Divide
  | Multiple
deriving DecidableEq, Repr

/-- The reward-rules configuration stored in a RewardCenter, with the field
names of hpl_reward_center::state::RewardRules as used in
src/cli/src/commands/create.rs: `payout_numeral` is a u64 and
`seller_reward_payout_basis_points` a u16. -/
structure RewardRules where
  mathematical_operand : PayoutOperation
  payout_numeral : Nat
  seller_reward_payout_basis_points : Nat
deriving DecidableEq, Repr

/-- Modelled from the spec: the base reward pool of a sale.  Divide yields
`price / payout_numeral`; Multiple yields `price.saturating_mul(payout_numeral)`. -/
def rewardPool (price : Nat) (rules : RewardRules) : Nat :=
  match rules.mathematical_operand with
  | .Divide => price / rules.payout_numeral
  | .Multiple => satMul64 price rules.payout_numeral

/-- Modelled from the spec: `compute_reward(price, rules) -> (buyer_amount,
seller_amount)` of the Reward Rules Engine, whose implementation is not
among the given sources.  The pool is split by basis points: seller share
`pool * bps / 10_000` exactly (the spec states the split holds exactly for
every valid configuration), buyer share `pool - seller_share`. -/
def compute_reward (price : Nat) (rules : RewardRules) : Nat × Nat :=
  let pool := rewardPool price rules
  let seller_amount := pool * rules.seller_reward_payout_basis_points / 10000
  (pool - seller_amount, seller_amount)

/-- The amount the withdraw-auction-house-treasury CLI command submits
on-chain, from src/cli/src/commands/withdraw_auction_house.rs lines 50-51:
`amount.saturating_mul(10u64.saturating_pow(decimals.into()))`. -/
def amount_to_withdraw_with_decimals (amount decimals : Nat) : Nat :=
  satMul64 amount (satPow64 10 decimals)

example : compute_reward 1000 ⟨.Divide, 5, 1000⟩ = (180, 20) := by decide
example : compute_reward 1000 ⟨.Multiple, 2, 2500⟩ = (1500, 500) := by decide

/-- Modelled from the spec: validity of a reward-rules configuration,
checked at create_reward_center and edit_reward_center:
`seller_reward_payout_basis_points <= 10_000` and `payout_numeral != 0`. -/
def validRules (r : RewardRules) : Prop :=
  r.seller_reward_payout_basis_points ≤ 10000 ∧ r.payout_numeral ≠ 0

instance (r : RewardRules) : Decidable (validRules r) :=
  inferInstanceAs (Decidable (_ ∧ _))

/-- The state of a Listing record: Active, Sold or Canceled. -/
inductive ListingState
  | Active
  | Sold
  | Canceled
deriving DecidableEq, Repr

/-- The state of an Offer record: Active, Accepted or Canceled. -/
inductive OfferState
  | Active
  | Accepted
  | Canceled
deriving DecidableEq, Repr

/-- A RewardCenter record: the reward rules together with the recorded
authority wallet. -/
structure RewardCenter where
  reward_rules : RewardRules
  authority : Pubkey
deriving DecidableEq, Repr

/-- A Listing record: the seller's ask for an NFT at a price. -/
structure Listing where
  seller : Pubkey
  price : Nat
  token_size : Nat
  state : ListingState
deriving DecidableEq, Repr

/-- An Offer record: a buyer's bid for an NFT at a price. -/
structure Offer where
  buyer : Pubkey
  price : Nat
  token_size : Nat
  state : OfferState
deriving DecidableEq, Repr

/-- The program-owned state touched by one instruction: the RewardCenter
record with its treasury balance, one Listing slot and one Offer slot
(records are address-keyed; one representative of each key suffices for
the per-record claims), and the reward-token balances credited to buyer,
seller and a withdrawal destination. -/
structure ProgramState where
  rewardCenter : Option RewardCenter
  treasury : Nat
  listing : Option Listing
  offer : Option Offer
  buyerRewardBalance : Nat
  sellerRewardBalance : Nat
  destinationBalance : Nat
deriving DecidableEq, Repr

/-- The error taxonomy of the program.  AdapterError carries the external
primitive's error code unchanged (propagated, not reinterpreted). -/
inductive RcError
  | ConfigurationError
  | AuthorizationError
  | StateConflictError
  | AddressMismatchError
  | InsufficientFundsError
  | AdapterError (code : Nat)
deriving DecidableEq, Repr

/-- Modelled from the spec: the create_reward_center handler (its body is
not among the given sources).  Validates the rules, initializing the
record and its empty treasury; fails with ConfigurationError otherwise. -/
def create_reward_center (authority : Pubkey) (rules : RewardRules)
    (s : ProgramState) : Except RcError ProgramState :=
  if validRules rules then
    .ok { s with rewardCenter := some ⟨rules, authority⟩, treasury := 0 }
  else
    .error .ConfigurationError

/-- Modelled from the spec: the edit_reward_center handler.  Authenticates
the caller as the recorded authority, then replaces the rules after the
same validation as creation. -/
def edit_reward_center (caller : Pubkey) (rules : RewardRules)
    (s : ProgramState) : Except RcError ProgramState :=
  match s.rewardCenter with
  | none => .error .AddressMismatchError
  | some rc =>
    if caller ≠ rc.authority then .error .AuthorizationError
    else if validRules rules then
      .ok { s with rewardCenter := some { rc with reward_rules := rules } }
    else
      .error .ConfigurationError

/-- Modelled from the spec: the withdraw_reward_center_funds handler.
Authenticates the authority and transfers `amount` from the treasury to
the destination; fails with InsufficientFundsError when `amount` exceeds
the disbursable balance (balance minus the host's rent/existence floor,
passed in as `rentFloor`). -/
def withdraw_reward_center_funds (caller : Pubkey) (amount rentFloor : Nat)
    (s : ProgramState) : Except RcError ProgramState :=
  match s.rewardCenter with
  | none => .error .AddressMismatchError
  | some rc =>
    if caller ≠ rc.authority then .error .AuthorizationError
    else if amount > s.treasury - rentFloor then .error .InsufficientFundsError
    else .ok { s with treasury := s.treasury - amount,
                      destinationBalance := s.destinationBalance + amount }

/-- Modelled from the spec: the create_listing handler.  Requires that no
Listing record exists for the key (terminal records persist and are never
reused), then creates the record in Active state. -/
def create_listing (seller price tokenSize : Nat)
    (s : ProgramState) : Except RcError ProgramState :=
  match s.listing with
  | some _ => .error .StateConflictError
  | none => .ok { s with listing := some ⟨seller, price, tokenSize, .Active⟩ }

/-- Modelled from the spec: the update_listing handler.  Authenticates the
seller, requires state Active, and mutates the price. -/
def update_listing (caller newPrice : Nat)
    (s : ProgramState) : Except RcError ProgramState :=
  match s.listing with
  | none => .error .AddressMismatchError
  | some l =>
    if caller ≠ l.seller then .error .AuthorizationError
    else if l.state ≠ .Active then .error .StateConflictError
    else .ok { s with listing := some { l with price := newPrice } }

/-- Modelled from the spec: the close_listing handler.  Authenticates the
seller, requires state Active, and transitions the Listing to Canceled. -/
def close_listing (caller : Pubkey)
    (s : ProgramState) : Except RcError ProgramState :=
  match s.listing with
  | none => .error .AddressMismatchError
  | some l =>
    if caller ≠ l.seller then .error .AuthorizationError
    else if l.state ≠ .Active then .error .StateConflictError
    else .ok { s with listing := some { l with state := .Canceled } }

/-- Modelled from the spec: the create_offer handler, mirroring
create_listing on the buy side. -/
def create_offer (buyer price tokenSize : Nat)
    (s : ProgramState) : Except RcError ProgramState :=
  match s.offer with
  | some _ => .error .StateConflictError
  | none => .ok { s with offer := some ⟨buyer, price, tokenSize, .Active⟩ }

/-- Modelled from the spec: the close_offer handler.  Authenticates the
buyer, requires state Active, and transitions the Offer to Canceled. -/
def close_offer (caller : Pubkey)
    (s : ProgramState) : Except RcError ProgramState :=
  match s.offer with
  | none => .error .AddressMismatchError
  | some o =>
    if caller ≠ o.buyer then .error .AuthorizationError
    else if o.state ≠ .Active then .error .StateConflictError
    else .ok { s with offer := some { o with state := .Canceled } }

/-- Modelled from the spec: the reward disbursement of a settlement.
Degrade policy (the spec requires one to be chosen and documented): pay
the buyer share capped by the treasury balance, then the seller share
capped by what remains, so the total paid is the computed total capped by
the treasury — never aborting the sale. -/
def disburseRewards (price : Nat) (rc : RewardCenter)
    (s : ProgramState) : ProgramState :=
  let r := compute_reward price rc.reward_rules
  let buyerPay := min r.1 s.treasury
  let sellerPay := min r.2 (s.treasury - buyerPay)
  { s with treasury := s.treasury - buyerPay - sellerPay,
           buyerRewardBalance := s.buyerRewardBalance + buyerPay,
           sellerRewardBalance := s.sellerRewardBalance + sellerPay }

/-- Modelled from the spec: the buy_listing handler (Settlement
Orchestrator).  Requires an Active Listing, invokes the Adapter's
execute_sale (its outcome passed in as `adapter`), propagates an Adapter
failure unchanged, and on success marks the Listing Sold and disburses
rewards under the degrade policy. -/
def buy_listing (adapter : Except Nat Unit)
    (s : ProgramState) : Except RcError ProgramState :=
  match s.rewardCenter, s.listing with
  | some rc, some l =>
    if l.state ≠ .Active then .error .StateConflictError
    else
      match adapter with
      | .error code => .error (.AdapterError code)
      | .ok _ =>
        .ok (disburseRewards l.price rc
              { s with listing := some { l with state := .Sold } })
  | _, _ => .error .AddressMismatchError

/-- Modelled from the spec: the accept_offer handler (Settlement
Orchestrator).  Requires both the Listing and the Offer Active with
matching price, invokes the Adapter's execute_sale, propagates an Adapter
failure unchanged, and on success marks the Listing Sold, the Offer
Accepted, and disburses rewards under the degrade policy. -/
def accept_offer (adapter : Except Nat Unit)
    (s : ProgramState) : Except RcError ProgramState :=
  match s.rewardCenter, s.listing, s.offer with
  | some rc, some l, some o =>
    if l.state ≠ .Active then .error .StateConflictError
    else if o.state ≠ .Active then .error .StateConflictError
    else if l.price ≠ o.price then .error .StateConflictError
    else
      match adapter with
      | .error code => .error (.AdapterError code)
      | .ok _ =>
        .ok (disburseRewards l.price rc
              { s with listing := some { l with state := .Sold },
                       offer := some { o with state := .Accepted } })
  | _, _, _ => .error .AddressMismatchError

/-- The public instruction surface of the program, exactly the ten entry
points declared in src/program/src/lib.rs: three RewardCenter lifecycle
operations, create/update/close for Listings, create/close for Offers,
and the two settlement entry points.  There is no update_offer.  The
Adapter outcome of a settlement is carried as instruction data since the
Adapter is an external collaborator. -/
inductive Instruction
  | createRewardCenter (authority : Pubkey) (rules : RewardRules)
  | editRewardCenter (caller : Pubkey) (rules : RewardRules)
  | withdrawRewardCenterFunds (caller amount rentFloor : Nat)
  | createListing (seller price tokenSize : Nat)
  | updateListing (caller newPrice : Nat)
  | closeListing (caller : Pubkey)
  | createOffer (buyer price tokenSize : Nat)
  | closeOffer (caller : Pubkey)
  | buyListing (adapter : Except Nat Unit)
  | acceptOffer (adapter : Except Nat Unit)

/-- Dispatch of one instruction to its handler, following the #[program]
module of src/program/src/lib.rs. -/
def step (i : Instruction) (s : ProgramState) : Except RcError ProgramState :=
  match i with
  | .createRewardCenter authority rules => create_reward_center authority rules s
  | .editRewardCenter caller rules => edit_reward_center caller rules s
  | .withdrawRewardCenterFunds caller amount rentFloor =>
      withdraw_reward_center_funds caller amount rentFloor s
  | .createListing seller price tokenSize => create_listing seller price tokenSize s
  | .updateListing caller newPrice => update_listing caller newPrice s
  | .closeListing caller => close_listing caller s
  | .createOffer buyer price tokenSize => create_offer buyer price tokenSize s
  | .closeOffer caller => close_offer caller s
  | .buyListing adapter => buy_listing adapter s
  | .acceptOffer adapter => accept_offer adapter s

/-- The host's per-transaction atomicity: a failing instruction leaves the
ledger state unchanged; a succeeding one installs the handler's result. -/
def applyTx (i : Instruction) (s : ProgramState) : ProgramState :=
  match step i s with
  | .ok s1 => s1
  | .error _ => s

/-- Modelled from the spec: the Address Derivation layer, a deterministic,
collision-free pure map from a seed tuple to a program-owned address
(distinct seed tuples give distinct addresses).  Realised here by an
injective encoding of the seed list. -/
def deriveProgramAddress (seeds : List Nat) : Pubkey :=
  Encodable.encode seeds

/-- The numeric stand-in for the constant seed string of the
reward-center derivation. -/
def REWARD_CENTER_SEED : Nat := 0

/-- The reward-center address derivation.  Per its call site
`find_reward_center_address(&auction_house_pubkey)` in
src/cli/src/commands/create.rs line 143, it takes only the auction-house
address: the seed tuple is the constant seed plus the auction house, and
the reward-token mint is not a seed. -/
def find_reward_center_address (auction_house : Pubkey) : Pubkey :=
  deriveProgramAddress [REWARD_CENTER_SEED, auction_house]

/-- The address the CLI derives for a reward center over an
(auction-house, reward-mint) pair: src/cli/src/commands/create.rs line 143
passes only the auction house, so the mint does not enter the derivation. -/
def rewardCenterAddressForPair (auction_house mint : Pubkey) : Pubkey :=
  find_reward_center_address auction_house

/-- The outcome of one admin CLI command process: a successful exit
carrying the confirmed transaction id, a non-zero exit carrying a
descriptive error (represented by a code), or a panic/abort. -/
inductive CliOutcome
  | cliOk (tx : Nat)
  | cliErr (code : Nat)
  | panicked
deriving DecidableEq, Repr

/-- The retry combinator of the retry crate as used by both CLI commands:
`retry(Exponential::from_millis_with_factor(250, 2.0).take(3), op)` runs
the operation once and then once more per remaining delay, returning the
first success or the last error.  `remaining` counts the delays left, so
`retryFrom 0 3 op` makes at most four attempts. -/
def retryFrom (attempt remaining : Nat) (op : Nat → Except Nat Nat) : Except Nat Nat :=
  match remaining with
  | 0 => op attempt
  | n + 1 =>
    match op attempt with
    | .ok v => .ok v
    | .error _ => retryFrom (attempt + 1) n op

/-- The fallible environment steps of process_withdraw_auction_house_treasury
(src/cli/src/commands/withdraw_auction_house.rs), in control-flow order:
config/keypair parsing, auction-house pubkey parsing, auction-house account
fetch and deserialization, treasury-mint decimals, latest blockhash, and
transaction submission (indexed by attempt number). -/
structure WithdrawEnv where
  configAndKeypair : Except Nat Unit
  auctionHousePubkey : Except Nat Pubkey
  auctionHouseData : Except Nat (Pubkey × Pubkey × Pubkey)
  mintDecimals : Except Nat Nat
  latestBlockhash : Except Nat Nat
  submit : Nat → Except Nat Nat

/-- The withdraw-auction-house-treasury CLI command
(src/cli/src/commands/withdraw_auction_house.rs): each fallible step is
propagated with the ? operator into a returned error (non-zero exit); the
withdrawal amount is scaled by the mint decimals with saturating
arithmetic; submission is wrapped in the bounded retry combinator. -/
def process_withdraw_auction_house_treasury (env : WithdrawEnv)
    (amount : Nat) : CliOutcome :=
  match env.configAndKeypair with
  | .error e => .cliErr e
  | .ok _ =>
  match env.auctionHousePubkey with
  | .error e => .cliErr e
  | .ok _ =>
  match env.auctionHouseData with
  | .error e => .cliErr e
  | .ok _ =>
  match env.mintDecimals with
  | .error e => .cliErr e
  | .ok decimals =>
  let _amt := amount_to_withdraw_with_decimals amount decimals
  match env.latestBlockhash with
  | .error e => .cliErr e
  | .ok _ =>
  match retryFrom 0 3 env.submit with
  | .error e => .cliErr e
  | .ok tx => .cliOk tx

/-- The fallible environment steps of process_create_reward_center
(src/cli/src/commands/create.rs) that precede the reward-center
instruction construction, plus the submission endpoint (never reached,
see process_create_reward_center). -/
structure CreateEnv where
  configAndKeypair : Except Nat Unit
  auctionHousePubkey : Except Nat Pubkey
  rewardCenterParams : Except Nat RewardRules
  submit : Nat → Except Nat Nat

/-- The create-reward-center CLI command (src/cli/src/commands/create.rs):
after config/keypair parsing, auction-house pubkey resolution and config
file loading, building the create_reward_center instruction evaluates the
todo macro placeholders in its CreateRewardCenterAccounts literal (lines
147-150), which panics unconditionally — before the transaction is built,
signed or submitted, so env.submit and the retry loop are never reached. -/
def process_create_reward_center (env : CreateEnv) : CliOutcome :=
  match env.configAndKeypair with
  | .error e => .cliErr e
  | .ok _ =>
  match env.auctionHousePubkey with
  | .error e => .cliErr e
  | .ok _ =>
  match env.rewardCenterParams with
  | .error e => .cliErr e
  | .ok _ => .panicked

/-! ## Helper lemmas -/

/-- The seller share of a pool never exceeds the pool when the basis
points are at most 10 000. -/
theorem seller_share_le_pool (pool bps : Nat) (hb : bps ≤ 10000) :
    pool * bps / 10000 ≤ pool := by
  calc pool * bps / 10000 ≤ pool * 10000 / 10000 :=
        Nat.div_le_div_right (Nat.mul_le_mul_left pool hb)
    _ = pool := by omega

/-- The reward pool is bounded by the u64 maximum whenever the price is. -/
theorem rewardPool_le_u64max (price : Nat) (rules : RewardRules)
    (hp : price ≤ U64MAX) : rewardPool price rules ≤ U64MAX := by
  unfold rewardPool
  cases rules.mathematical_operand with
  | Divide => exact le_trans (Nat.div_le_self price rules.payout_numeral) hp
  | Multiple => exact min_le_right _ _

/-! ## Claim theorems -/

/-- C1: for every u64 price and every rules configuration with nonzero
payout numeral and basis points at most 10 000, compute_reward matches the
reference definition — pool by Divide/Multiple (the latter saturating at
u64 MAX), seller share `pool * bps / 10_000` exactly, buyer share the
remainder — the two shares sum to at most the pool, both stay within u64
range (no wrap, no panic), and the two worked examples hold: Divide with
numeral 5, price 1000, bps 1000 gives (buyer 180, seller 20); Multiple
with numeral 2, price 1000, bps 2500 gives (buyer 1500, seller 500).
Determinism is immediate since compute_reward is a pure function. -/
theorem compute_reward_correct (price : Nat) (rules : RewardRules)
    (hp : price ≤ U64MAX) (hn : rules.payout_numeral ≠ 0)
    (hb : rules.seller_reward_payout_basis_points ≤ 10000) :
    (compute_reward price rules =
      (rewardPool price rules -
         rewardPool price rules * rules.seller_reward_payout_basis_points / 10000,
       rewardPool price rules * rules.seller_reward_payout_basis_points / 10000)) ∧
    (rewardPool price rules =
      match rules.mathematical_operand with
      | .Divide => price / rules.payout_numeral
      | .Multiple => min (price * rules.payout_numeral) U64MAX) ∧
    (compute_reward price rules).1 + (compute_reward price rules).2 ≤
      rewardPool price rules ∧
    (compute_reward price rules).1 ≤ U64MAX ∧
    (compute_reward price rules).2 ≤ U64MAX ∧
    compute_reward 1000 ⟨.Divide, 5, 1000⟩ = (180, 20) ∧
    compute_reward 1000 ⟨.Multiple, 2, 2500⟩ = (1500, 500) := by
  have hs : rewardPool price rules * rules.seller_reward_payout_basis_points / 10000 ≤
      rewardPool price rules :=
    seller_share_le_pool _ _ hb
  have hpool : rewardPool price rules ≤ U64MAX := rewardPool_le_u64max price rules hp
  exact ⟨rfl, rfl, le_of_eq (Nat.sub_add_cancel hs),
    le_trans (Nat.sub_le _ _) hpool, le_trans hs hpool, by decide, by decide⟩

/-- Witness for C1 at price 1000 with the Divide rules of the worked
example. -/
theorem compute_reward_correct_witness :
    (compute_reward 1000 ⟨.Divide, 5, 1000⟩).1 +
      (compute_reward 1000 ⟨.Divide, 5, 1000⟩).2 ≤
      rewardPool 1000 ⟨.Divide, 5, 1000⟩ :=
  (compute_reward_correct 1000 ⟨.Divide, 5, 1000⟩ (by decide) (by decide)
    (by decide)).2.2.1

/-- A concrete ledger state used by witnesses: a valid reward center with
authority 1 and treasury 100, an Active listing by seller 2 at price 1000,
and an Active offer by buyer 3 at price 1000. -/
def sampleState : ProgramState :=
  { rewardCenter := some ⟨⟨.Divide, 5, 1000⟩, 1⟩
    treasury := 100
    listing := some ⟨2, 1000, 1, .Active⟩
    offer := some ⟨3, 1000, 1, .Active⟩
    buyerRewardBalance := 0
    sellerRewardBalance := 0
    destinationBalance := 0 }

/-- C2: when the Adapter's execute_sale fails during buy_listing or
accept_offer on an otherwise-valid settlement, the whole operation aborts
with the Adapter's error code propagated unchanged (AdapterError code, not
reinterpreted), and the transaction leaves the ledger state — Listing,
Offer and treasury included — exactly as it was. -/
theorem settlement_adapter_failure_atomic (s : ProgramState)
    (rc : RewardCenter) (l : Listing) (code : Nat)
    (hrc : s.rewardCenter = some rc) (hl : s.listing = some l)
    (hact : l.state = .Active) :
    (step (.buyListing (.error code)) s = .error (.AdapterError code) ∧
     applyTx (.buyListing (.error code)) s = s) ∧
    (∀ o : Offer, s.offer = some o → o.state = .Active → o.price = l.price →
      step (.acceptOffer (.error code)) s = .error (.AdapterError code) ∧
      applyTx (.acceptOffer (.error code)) s = s) := by
  constructor
  · have hbuy : step (.buyListing (.error code)) s = .error (.AdapterError code) := by
      simp [step, buy_listing, hrc, hl, hact]
    exact ⟨hbuy, by simp [applyTx, hbuy]⟩
  · intro o ho hoact hop
    have hacc : step (.acceptOffer (.error code)) s = .error (.AdapterError code) := by
      simp [step, accept_offer, hrc, hl, ho, hact, hoact, hop]
    exact ⟨hacc, by simp [applyTx, hacc]⟩

/-- Witness for C2 on the sample state with adapter error code 42. -/
theorem settlement_adapter_failure_atomic_witness :
    step (.buyListing (.error 42)) sampleState = .error (.AdapterError 42) ∧
    applyTx (.buyListing (.error 42)) sampleState = sampleState :=
  (settlement_adapter_failure_atomic sampleState ⟨⟨.Divide, 5, 1000⟩, 1⟩
    ⟨2, 1000, 1, .Active⟩ 42 rfl rfl rfl).1

/-- Every instruction preserves the invariant that a stored RewardCenter
carries valid reward rules: the only instructions that write the record,
create_reward_center and edit_reward_center, are guarded by the validity
check. -/
theorem step_preserves_valid_rules (i : Instruction) (s s1 : ProgramState)
    (hok : step i s = .ok s1)
    (hinv : ∀ rc, s.rewardCenter = some rc → validRules rc.reward_rules) :
    ∀ rc1, s1.rewardCenter = some rc1 → validRules rc1.reward_rules := by
  intro rc1 hrc1
  cases i <;>
    simp only [step, create_reward_center, edit_reward_center,
      withdraw_reward_center_funds, create_listing, update_listing,
      close_listing, create_offer, close_offer, buy_listing,
      accept_offer] at hok <;>
    (repeat' split at hok) <;>
    (try exact Except.noConfusion hok) <;>
    (injection hok with h1) <;>
    subst h1 <;>
    simp_all [disburseRewards, validRules] <;>
    cases hrc1 <;>
    simp_all

/-- C3: once the Adapter's execute_sale succeeds, the settlement succeeds
for every treasury balance — an insufficient treasury (the statement puts
no constraint whatever on `s.treasury`) never makes buy_listing or
accept_offer fail or roll back: the Listing still becomes Sold (and the
Offer Accepted), and the rewards actually paid are the computed total
capped by the treasury balance (reduced, down to zero, instead of
aborting the sale). -/
theorem settlement_never_rolls_back_on_insufficient_treasury
    (s : ProgramState) (rc : RewardCenter) (l : Listing)
    (hrc : s.rewardCenter = some rc) (hl : s.listing = some l)
    (hact : l.state = .Active) :
    (∃ s1, step (.buyListing (.ok ())) s = .ok s1 ∧
       s1.listing = some { l with state := .Sold } ∧
       s1.treasury = s.treasury -
         min ((compute_reward l.price rc.reward_rules).1 +
              (compute_reward l.price rc.reward_rules).2) s.treasury) ∧
    (∀ o : Offer, s.offer = some o → o.state = .Active → o.price = l.price →
      ∃ s1, step (.acceptOffer (.ok ())) s = .ok s1 ∧
        s1.listing = some { l with state := .Sold } ∧
        s1.offer = some { o with state := .Accepted }) := by
  constructor
  · refine ⟨disburseRewards l.price rc
        { s with listing := some { l with state := .Sold } }, ?_, ?_, ?_⟩
    · simp [step, buy_listing, hrc, hl, hact]
    · simp [disburseRewards]
    · simp only [disburseRewards]
      omega
  · intro o ho hoact hop
    refine ⟨disburseRewards l.price rc
        { s with listing := some { l with state := .Sold },
                 offer := some { o with state := .Accepted } }, ?_, ?_, ?_⟩
    · simp [step, accept_offer, hrc, hl, ho, hact, hoact, hop]
    · simp [disburseRewards]
    · simp [disburseRewards]

/-- Witness for C3 on the sample state with its treasury forced to zero:
the sale still settles. -/
theorem settlement_never_rolls_back_witness :
    ∃ s1, step (.buyListing (.ok ())) { sampleState with treasury := 0 } = .ok s1 ∧
      s1.listing = some ⟨2, 1000, 1, .Sold⟩ ∧
      s1.treasury = ({ sampleState with treasury := 0 } : ProgramState).treasury -
        min ((compute_reward 1000 (⟨.Divide, 5, 1000⟩ : RewardRules)).1 +
             (compute_reward 1000 (⟨.Divide, 5, 1000⟩ : RewardRules)).2) 0 :=
  (settlement_never_rolls_back_on_insufficient_treasury
    { sampleState with treasury := 0 } ⟨⟨.Divide, 5, 1000⟩, 1⟩
    ⟨2, 1000, 1, .Active⟩ rfl rfl rfl).1

/-- C4: create_reward_center, and edit_reward_center under the recorded
authority, succeed exactly when the rules are valid (basis points at most
10 000 and nonzero payout numeral) and otherwise fail with
ConfigurationError leaving the state untouched; basis points 10 001 are
rejected and 10 000 accepted; and across every instruction of the
program, a stored RewardCenter only ever carries valid rules, so
settlement never evaluates compute_reward on an invalid configuration. -/
theorem reward_center_configuration_validation :
    (∀ (s : ProgramState) (authority : Pubkey) (rules : RewardRules),
      ((∃ s1, step (.createRewardCenter authority rules) s = .ok s1) ↔
        validRules rules) ∧
      (¬ validRules rules →
        step (.createRewardCenter authority rules) s = .error .ConfigurationError ∧
        applyTx (.createRewardCenter authority rules) s = s)) ∧
    (∀ (s : ProgramState) (rc : RewardCenter) (caller : Pubkey)
        (rules : RewardRules),
      s.rewardCenter = some rc → caller = rc.authority →
      ((∃ s1, step (.editRewardCenter caller rules) s = .ok s1) ↔
        validRules rules) ∧
      (¬ validRules rules →
        step (.editRewardCenter caller rules) s = .error .ConfigurationError ∧
        applyTx (.editRewardCenter caller rules) s = s)) ∧
    (∀ (s : ProgramState) (authority : Pubkey) (op : PayoutOperation) (pn : Nat),
      pn ≠ 0 →
      (∃ s1, step (.createRewardCenter authority ⟨op, pn, 10000⟩) s = .ok s1) ∧
      step (.createRewardCenter authority ⟨op, pn, 10001⟩) s =
        .error .ConfigurationError) ∧
    (∀ (i : Instruction) (s s1 : ProgramState), step i s = .ok s1 →
      (∀ rc, s.rewardCenter = some rc → validRules rc.reward_rules) →
      ∀ rc1, s1.rewardCenter = some rc1 → validRules rc1.reward_rules) := by
  refine ⟨?_, ?_, ?_, step_preserves_valid_rules⟩
  · intro s authority rules
    constructor
    · constructor
      · rintro ⟨s1, hs1⟩
        by_contra hinvalid
        simp [step, create_reward_center, hinvalid] at hs1
      · intro hvalid
        exact ⟨{ s with rewardCenter := some ⟨rules, authority⟩, treasury := 0 },
          by simp [step, create_reward_center, hvalid]⟩
    · intro hinvalid
      have hstep : step (.createRewardCenter authority rules) s =
          .error .ConfigurationError := by
        simp [step, create_reward_center, hinvalid]
      exact ⟨hstep, by simp [applyTx, hstep]⟩
  · intro s rc caller rules hrc hcaller
    constructor
    · constructor
      · rintro ⟨s1, hs1⟩
        by_contra hinvalid
        simp [step, edit_reward_center, hrc, hcaller, hinvalid] at hs1
      · intro hvalid
        exact ⟨{ s with rewardCenter := some { rc with reward_rules := rules } },
          by simp [step, edit_reward_center, hrc, hcaller, hvalid]⟩
    · intro hinvalid
      have hstep : step (.editRewardCenter caller rules) s =
          .error .ConfigurationError := by
        simp [step, edit_reward_center, hrc, hcaller, hinvalid]
      exact ⟨hstep, by simp [applyTx, hstep]⟩
  · intro s authority op pn hpn
    constructor
    · exact ⟨{ s with rewardCenter := some ⟨⟨op, pn, 10000⟩, authority⟩, treasury := 0 },
        by simp [step, create_reward_center, validRules, hpn]⟩
    · simp [step, create_reward_center, validRules]

/-- Witness for C4: with numeral 5, basis points 10 000 are accepted and
10 001 rejected on the sample state. -/
theorem reward_center_configuration_validation_witness :
    (∃ s1, step (.createRewardCenter 1 ⟨.Divide, 5, 10000⟩) sampleState = .ok s1) ∧
    step (.createRewardCenter 1 ⟨.Divide, 5, 10001⟩) sampleState =
      .error .ConfigurationError :=
  reward_center_configuration_validation.2.2.1 sampleState 1 .Divide 5 (by decide)

/-- A Listing not in Active state is left exactly as it is by every
instruction: the Listing-mutating handlers all require Active, and
create_listing requires the record slot to be empty (no record reuse). -/
theorem step_preserves_terminal_listing (i : Instruction) (s s1 : ProgramState)
    (l : Listing) (hok : step i s = .ok s1) (hl : s.listing = some l)
    (hterm : l.state ≠ .Active) : s1.listing = some l := by
  cases i <;>
    simp only [step, create_reward_center, edit_reward_center,
      withdraw_reward_center_funds, create_listing, update_listing,
      close_listing, create_offer, close_offer, buy_listing,
      accept_offer] at hok <;>
    (repeat' split at hok) <;>
    (try exact Except.noConfusion hok) <;>
    (injection hok with h1) <;>
    subst h1 <;>
    simp_all [disburseRewards]

/-- C5: update_listing and close_listing on a Listing that is not Active
fail with StateConflictError and leave the state untouched; a second
close_listing after a successful one fails the same way without undoing
the first; and no instruction whatever moves a Listing out of a terminal
state — Sold and Canceled are final. -/
theorem listing_terminal_states_final :
    (∀ (s : ProgramState) (l : Listing) (caller newPrice : Nat),
      s.listing = some l → caller = l.seller → l.state ≠ .Active →
      step (.updateListing caller newPrice) s = .error .StateConflictError ∧
      step (.closeListing caller) s = .error .StateConflictError ∧
      applyTx (.updateListing caller newPrice) s = s ∧
      applyTx (.closeListing caller) s = s) ∧
    (∀ (s s1 : ProgramState) (caller : Pubkey),
      step (.closeListing caller) s = .ok s1 →
      step (.closeListing caller) s1 = .error .StateConflictError ∧
      applyTx (.closeListing caller) s1 = s1) ∧
    (∀ (i : Instruction) (s s1 : ProgramState) (l : Listing),
      step i s = .ok s1 → s.listing = some l → l.state ≠ .Active →
      s1.listing = some l) := by
  refine ⟨?_, ?_, step_preserves_terminal_listing⟩
  · intro s l caller newPrice hl hcaller hna
    have h1 : step (.updateListing caller newPrice) s = .error .StateConflictError := by
      simp [step, update_listing, hl, hcaller, hna]
    have h2 : step (.closeListing caller) s = .error .StateConflictError := by
      simp [step, close_listing, hl, hcaller, hna]
    exact ⟨h1, h2, by simp [applyTx, h1], by simp [applyTx, h2]⟩
  · intro s s1 caller hok
    simp only [step, close_listing] at hok
    repeat' split at hok
    all_goals try exact Except.noConfusion hok
    injection hok with h1
    subst h1
    refine ⟨?_, ?_⟩ <;> simp_all [applyTx, step, close_listing]

/-- Witness for C5 on the sample state with its Listing already Canceled. -/
theorem listing_terminal_states_final_witness :
    step (.updateListing 2 500)
        { sampleState with listing := some ⟨2, 1000, 1, .Canceled⟩ } =
      .error .StateConflictError ∧
    step (.closeListing 2)
        { sampleState with listing := some ⟨2, 1000, 1, .Canceled⟩ } =
      .error .StateConflictError ∧
    applyTx (.updateListing 2 500)
        { sampleState with listing := some ⟨2, 1000, 1, .Canceled⟩ } =
      { sampleState with listing := some ⟨2, 1000, 1, .Canceled⟩ } ∧
    applyTx (.closeListing 2)
        { sampleState with listing := some ⟨2, 1000, 1, .Canceled⟩ } =
      { sampleState with listing := some ⟨2, 1000, 1, .Canceled⟩ } :=
  listing_terminal_states_final.1
    { sampleState with listing := some ⟨2, 1000, 1, .Canceled⟩ }
    ⟨2, 1000, 1, .Canceled⟩ 2 500 rfl rfl (by decide)

/-- C6 counterexample: the reward-center derivation takes only the
auction house (src/cli/src/commands/create.rs line 143), so for the same
auction house 5 and two distinct reward-token mints 1 and 2 the derived
addresses coincide — the seeds do not distinguish distinct
(auction-house, reward-mint) pairs, and two such RewardCenters cannot
coexist. -/
theorem reward_center_address_ignores_mint :
    rewardCenterAddressForPair 5 1 = rewardCenterAddressForPair 5 2 ∧
    (1 : Pubkey) ≠ 2 :=
  ⟨rfl, by decide⟩

/-- C6 (amended): the RewardCenter address is a deterministic,
collision-free function of the auction house alone — one RewardCenter per
auction house: the derived address is independent of the reward-token
mint, and distinct auction houses derive distinct addresses. -/
theorem find_reward_center_address_per_auction_house :
    (∀ ah mint mint1 : Pubkey,
      rewardCenterAddressForPair ah mint = rewardCenterAddressForPair ah mint1) ∧
    (∀ ah ah1 : Pubkey, ah ≠ ah1 →
      find_reward_center_address ah ≠ find_reward_center_address ah1) := by
  refine ⟨fun ah mint mint1 => rfl, fun ah ah1 hne heq => hne ?_⟩
  have h : ([REWARD_CENTER_SEED, ah] : List Nat) = [REWARD_CENTER_SEED, ah1] :=
    Encodable.encode_injective heq
  simpa using h

/-- Witness for the amended C6: auction houses 0 and 1 get distinct
reward-center addresses. -/
theorem find_reward_center_address_per_auction_house_witness :
    find_reward_center_address 0 ≠ find_reward_center_address 1 :=
  find_reward_center_address_per_auction_house.2 0 1 (by decide)

/-- C7: a withdraw_reward_center_funds call by the recorded authority for
an amount above the disbursable balance (treasury balance minus the
rent/existence floor) fails with InsufficientFundsError and leaves the
treasury untouched; for an amount within the disbursable balance exactly
that amount moves from the treasury to the destination. -/
theorem withdraw_reward_center_funds_correct (s : ProgramState)
    (rc : RewardCenter) (caller : Pubkey) (amount rentFloor : Nat)
    (hrc : s.rewardCenter = some rc) (hcaller : caller = rc.authority) :
    (amount > s.treasury - rentFloor →
      step (.withdrawRewardCenterFunds caller amount rentFloor) s =
        .error .InsufficientFundsError ∧
      applyTx (.withdrawRewardCenterFunds caller amount rentFloor) s = s) ∧
    (amount ≤ s.treasury - rentFloor →
      ∃ s1, step (.withdrawRewardCenterFunds caller amount rentFloor) s = .ok s1 ∧
        s1.treasury = s.treasury - amount ∧
        s1.destinationBalance = s.destinationBalance + amount ∧
        s1.listing = s.listing ∧ s1.offer = s.offer ∧
        s1.rewardCenter = s.rewardCenter) := by
  constructor
  · intro hover
    have hstep : step (.withdrawRewardCenterFunds caller amount rentFloor) s =
        .error .InsufficientFundsError := by
      simp [step, withdraw_reward_center_funds, hrc, hcaller, hover]
    exact ⟨hstep, by simp [applyTx, hstep]⟩
  · intro hwithin
    refine ⟨{ s with
        treasury := s.treasury - amount
        destinationBalance := s.destinationBalance + amount },
      ?_, by simp, by simp, by simp, by simp, by simp⟩
    simp [step, withdraw_reward_center_funds, hrc, hcaller, Nat.not_lt.mpr hwithin]

/-- Witness for C7 on the sample state: withdrawing 200 from a treasury
of 100 fails; withdrawing 30 with a rent floor of 50 moves exactly 30. -/
theorem withdraw_reward_center_funds_correct_witness :
    (step (.withdrawRewardCenterFunds 1 200 0) sampleState =
      .error .InsufficientFundsError ∧
     applyTx (.withdrawRewardCenterFunds 1 200 0) sampleState = sampleState) ∧
    (∃ s1, step (.withdrawRewardCenterFunds 1 30 50) sampleState = .ok s1 ∧
      s1.treasury = sampleState.treasury - 30 ∧
      s1.destinationBalance = sampleState.destinationBalance + 30 ∧
      s1.listing = sampleState.listing ∧ s1.offer = sampleState.offer ∧
      s1.rewardCenter = sampleState.rewardCenter) :=
  ⟨(withdraw_reward_center_funds_correct sampleState ⟨⟨.Divide, 5, 1000⟩, 1⟩
      1 200 0 rfl rfl).1 (by decide),
   (withdraw_reward_center_funds_correct sampleState ⟨⟨.Divide, 5, 1000⟩, 1⟩
      1 30 50 rfl rfl).2 (by decide)⟩

/-- No instruction in the program's interface changes the price (or the
buyer or quantity) of an Offer record in place: create_offer only fills an
empty slot, and close_offer / accept_offer change only the state field. -/
theorem step_preserves_offer_price (i : Instruction) (s s1 : ProgramState)
    (o o1 : Offer) (hok : step i s = .ok s1) (ho : s.offer = some o)
    (ho1 : s1.offer = some o1) :
    o1.price = o.price ∧ o1.buyer = o.buyer ∧ o1.token_size = o.token_size := by
  cases i <;>
    simp only [step, create_reward_center, edit_reward_center,
      withdraw_reward_center_funds, create_listing, update_listing,
      close_listing, create_offer, close_offer, buy_listing,
      accept_offer] at hok <;>
    (repeat' split at hok) <;>
    (try exact Except.noConfusion hok) <;>
    (injection hok with h1) <;>
    subst h1 <;>
    simp_all [disburseRewards] <;>
    cases ho1 <;>
    simp_all

/-- C8: the instruction surface (the ten entry points of
src/program/src/lib.rs, enumerated exhaustively by `Instruction`) has no
update_offer: for every Offer record present before and after any
successful instruction, its price is unchanged — amending a bid price is
only possible by close_offer followed by a fresh create_offer. -/
theorem offer_price_never_mutated_in_place :
    ∀ (i : Instruction) (s s1 : ProgramState) (o o1 : Offer),
      step i s = .ok s1 → s.offer = some o → s1.offer = some o1 →
      o1.price = o.price :=
  fun i s s1 o o1 hok ho ho1 =>
    (step_preserves_offer_price i s s1 o o1 hok ho ho1).1

/-- Witness for C8: closing the sample offer preserves its price. -/
theorem offer_price_never_mutated_in_place_witness :
    (⟨3, 1000, 1, .Canceled⟩ : Offer).price = (⟨3, 1000, 1, .Active⟩ : Offer).price :=
  offer_price_never_mutated_in_place (.closeOffer 3) sampleState
    { sampleState with offer := some ⟨3, 1000, 1, .Canceled⟩ }
    ⟨3, 1000, 1, .Active⟩ ⟨3, 1000, 1, .Canceled⟩ rfl rfl rfl

/-- C9: evaluating the two admin CLI commands.  create-reward-center, run
in an environment where config, keypair, auction-house pubkey and config
file all load fine and the RPC node would reject every submission, panics
(the todo placeholders of src/cli/src/commands/create.rs lines 147-150)
instead of returning an error after bounded retry — the submission
closure is never invoked.  withdraw-auction-house-treasury in the same
failing-RPC environment does behave as claimed: after its bounded retry
(four attempts) it returns the submission error (non-zero exit). -/
theorem create_reward_center_cli_panics :
    process_create_reward_center
      ⟨.ok (), .ok 7, .ok ⟨.Divide, 5, 1000⟩, fun _ => .error 1⟩ = .panicked ∧
    process_withdraw_auction_house_treasury
      ⟨.ok (), .ok 7, .ok (1, 2, 3), .ok 9, .ok 4, fun _ => .error 11⟩ 10 =
      .cliErr 11 :=
  ⟨rfl, rfl⟩

/-- C10: the amount the withdraw-auction-house-treasury command submits
equals the user-supplied amount scaled by ten to the mint's decimals when
that product fits in u64, and saturates to u64 MAX otherwise — no wrap
and no panic, for every amount and every decimals value. -/
theorem withdraw_amount_scaling (amount decimals : Nat) :
    amount_to_withdraw_with_decimals amount decimals =
      if amount * 10 ^ decimals ≤ U64MAX then amount * 10 ^ decimals
      else U64MAX := by
  unfold amount_to_withdraw_with_decimals satMul64 satPow64
  rcases le_or_lt (10 ^ decimals) U64MAX with h | h
  · rw [min_eq_left h]
    rcases le_or_lt (amount * 10 ^ decimals) U64MAX with h2 | h2
    · rw [min_eq_left h2, if_pos h2]
    · rw [min_eq_right (le_of_lt h2), if_neg (not_le.mpr h2)]
  · rw [min_eq_right (le_of_lt h)]
    cases amount with
    | zero => simp
    | succ n =>
      have hge : U64MAX ≤ (n + 1) * U64MAX :=
        Nat.le_mul_of_pos_left U64MAX (Nat.succ_pos n)
      rw [min_eq_right hge]
      have hbig : ¬ (n + 1) * 10 ^ decimals ≤ U64MAX := by
        have hp : 10 ^ decimals ≤ (n + 1) * 10 ^ decimals :=
          Nat.le_mul_of_pos_left (10 ^ decimals) (Nat.succ_pos n)
        omega
      rw [if_neg hbig]
